import Mathlib

/-!
Verification of the bell-shaped grain geometry model (src/vital.py).

The module defines a `BellShapedGrain` with configured diameters and a length,
computes the core's frustum at a regression depth (`getFrustumInfo`), a local
mass flux (`getMassFlux`), and a validation hook (`getGeometryErrors`).
Arithmetic is embedded over ℚ.  The external geometry primitives
(`geometry.frustumVolume`, `geometry.circleArea`) are not in src/, so they are
modelled from the spec with the constant π abstracted as a positive rational
parameter `piv`; every theorem that depends on π holds for all positive values
of that parameter.
-/

namespace Vital

/-- The `inhibitedEnds` enumerated property.  The property declares only the
value `Both` as selectable (line 16), but the computation at lines 33-36
branches on all four values, so all four are represented. -/
inductive InhibitedEnds
  | Both
  | Neither
  | Top
  | Bottom
deriving DecidableEq, Repr

/-- Configuration of a `BellShapedGrain`: the three float properties added in
`__init__` (lines 13-15), the enumerated `inhibitedEnds` (line 16), and the
`length` property inherited from the base `Grain`. -/
structure BellShapedGrain where
  initialPortDiameter : ℚ
  throatDiameter : ℚ
  aftEndDiameter : ℚ
  inhibitedEnds : InhibitedEnds
  length : ℚ
deriving DecidableEq, Repr

/-- `isCoreInverted` (lines 18-20): true iff the configured forward (initial
port) diameter is strictly larger than the configured aft-end diameter. -/
def isCoreInverted (g : BellShapedGrain) : Bool :=
  decide (g.initialPortDiameter > g.aftEndDiameter)

/-- `exposedFaces` as computed at lines 31-36 of `getFrustumInfo`.  The value
is bound there but never used by the returned triple; it is kept as a separate
definition for fidelity. -/
def exposedFaces (g : BellShapedGrain) : ℕ :=
  match g.inhibitedEnds with
  | InhibitedEnds.Neither => 2
  | InhibitedEnds.Top => 1
  | InhibitedEnds.Bottom => 1
  | InhibitedEnds.Both => 0

/-- `coreMajorDiameter` per lines 39-42: the initial port diameter when the
core is inverted, the aft-end diameter otherwise. -/
def coreMajorDiameter (g : BellShapedGrain) : ℚ :=
  if isCoreInverted g then g.initialPortDiameter else g.aftEndDiameter

/-- `coreMinorDiameter` per lines 39-42: the aft-end diameter when the core is
inverted, the initial port diameter otherwise. -/
def coreMinorDiameter (g : BellShapedGrain) : ℚ :=
  if isCoreInverted g then g.aftEndDiameter else g.initialPortDiameter

/-- The regression scale factor `1 - regDist / grainLength` applied to both
core diameters at lines 49-50. -/
def regressionFactor (g : BellShapedGrain) (regDist : ℚ) : ℚ :=
  1 - regDist / g.length

/-- `getFrustumInfo` (lines 23-60): the dimensions of the core at regression
depth `regDist`, returned as (aft diameter, forward diameter, length).
Lines 49-55 set the aft frustum diameter to the regressed minor diameter and
the forward frustum diameter to the regressed major diameter; the return
statements at lines 57-60 emit (aft, forward, length) when the core is
inverted and (forward, aft, length) otherwise.  The local `angle` bound at
line 46 is never used by the returned triple; its (failing) evaluation is
modelled separately by `getFrustumInfoE`. -/
def getFrustumInfo (g : BellShapedGrain) (regDist : ℚ) : ℚ × ℚ × ℚ :=
  if isCoreInverted g then
    (coreMinorDiameter g * regressionFactor g regDist,
     coreMajorDiameter g * regressionFactor g regDist,
     g.length - regDist)
  else
    (coreMajorDiameter g * regressionFactor g regDist,
     coreMinorDiameter g * regressionFactor g regDist,
     g.length - regDist)

/-- Modelled from the spec: the external geometry module's conical-frustum
volume primitive ("standard conical-frustum volume from aft/forward diameters
and length"), V = pi * h / 12 * (d1^2 + d1*d2 + d2^2).  The geometry module is
outside src/, so the constant pi is abstracted as the parameter `piv`. -/
def frustumVolume (piv d1 d2 h : ℚ) : ℚ :=
  piv * h / 12 * (d1 ^ 2 + d1 * d2 + d2 ^ 2)

/-- Modelled from the spec: the external geometry module's circle-area
primitive, A = pi * d^2 / 4, with pi abstracted as `piv`. -/
def circleArea (piv d : ℚ) : ℚ :=
  piv * d ^ 2 / 4

/-- The frustum volume of the triple returned by `getFrustumInfo` at a given
regression depth, i.e. `geometry.frustumVolume(*self.getFrustumInfo(r))` as at
lines 68-73. -/
def frustumVolumeAt (piv : ℚ) (g : BellShapedGrain) (r : ℚ) : ℚ :=
  frustumVolume piv (getFrustumInfo g r).1 (getFrustumInfo g r).2.1
    (getFrustumInfo g r).2.2

/-- The port diameter selected at line 78: element 1 of the current frustum
triple (the forward slot) when the core is inverted, element 0 (the aft slot)
otherwise. -/
def portDiameterAt (g : BellShapedGrain) (r : ℚ) : ℚ :=
  if isCoreInverted g then (getFrustumInfo g r).2.1 else (getFrustumInfo g r).1

/-- `getMassFlux` (lines 62-81): mass flow from the volume swept between the
current and future frusta, (futureVolume - currentVolume) * density / dTime,
plus `massIn`, divided by the circle area of the port diameter selected from
the frustum at the *current* regression distance.  `position` is accepted but
unused, exactly as in the source. -/
def getMassFlux (piv : ℚ) (g : BellShapedGrain)
    (massIn dTime regDist dRegDist _position density : ℚ) : ℚ :=
  ((frustumVolumeAt piv g (regDist + dRegDist) - frustumVolumeAt piv g regDist)
      * density / dTime + massIn)
    / circleArea piv (portDiameterAt g regDist)

/-!  Fallible semantics: name resolution.

Line 46 of src/vital.py applies `atan`, a global name.  The module's top level
binds only the names imported at lines 1-4 and the class name; `atan` is bound
nowhere (and it is not a Python builtin), so evaluating line 46 raises a
NameError before `getFrustumInfo` can return. -/

/-- The global names relevant to src/vital.py: the seven names bound by
the import statements at lines 1-4, the class name bound by the class
statement, and the free name `atan` applied at line 46. -/
inductive PyName
  | Grain
  | geometry
  | SimAlert
  | SimAlertLevel
  | SimAlertType
  | FloatProperty
  | EnumProperty
  | BellShapedGrain
  | atan
deriving DecidableEq, Repr

/-- Whether a global name is bound at module scope of src/vital.py.  The
four imports (lines 1-4) bind the first seven names and the class statement
binds `BellShapedGrain`; `atan` has no binding (no import of `math` or of
`atan` from it appears, and `atan` is not a builtin). -/
def moduleBinds : PyName → Bool
  | PyName.atan => false
  | _ => true

/-- Python global-name lookup: returns the unit value when the name is bound,
and a NameError carrying the missing name otherwise. -/
def resolveGlobal (n : PyName) : Except PyName Unit :=
  if moduleBinds n then Except.ok () else Except.error n

/-- `getFrustumInfo` with name resolution made explicit: line 46 evaluates
`atan(...)` (the argument expression evaluates without error), so the lookup
of the global `atan` happens on every call, before the return statements. -/
def getFrustumInfoE (g : BellShapedGrain) (regDist : ℚ) :
    Except PyName (ℚ × ℚ × ℚ) := do
  _ ← resolveGlobal PyName.atan
  pure (getFrustumInfo g regDist)

/-- `getMassFlux` with name resolution made explicit: lines 68-69 call
`getFrustumInfo` twice before any arithmetic, so any error it raises
propagates. -/
def getMassFluxE (piv : ℚ) (g : BellShapedGrain)
    (massIn dTime regDist dRegDist position density : ℚ) : Except PyName ℚ := do
  _ ← getFrustumInfoE g regDist
  _ ← getFrustumInfoE g (regDist + dRegDist)
  pure (getMassFlux piv g massIn dTime regDist dRegDist position density)

/-!  Validation. -/

/-- Severity levels of the alert mechanism imported at line 3, modelled from
the spec ("structured alerts (kind = geometry error, severity, human-readable
message)"). -/
inductive SimAlertLevel
  | ERROR
  | WARNING
  | MESSAGE
deriving DecidableEq, Repr

/-- A structured alert, modelled from the spec: kind is fixed to geometry
error within this component, so only severity and message are carried. -/
structure SimAlert where
  level : SimAlertLevel
  message : String
deriving DecidableEq, Repr

/-- `getGeometryErrors` (lines 89-94): calls the base grain's validation and
returns its result.  The base `Grain.getGeometryErrors` is external to src/,
so it is taken as the explicit argument `baseErrors`; the comment block at
lines 91-92 appends nothing, so the body returns `baseErrors` unchanged. -/
def getGeometryErrors (_g : BellShapedGrain) (baseErrors : List SimAlert) :
    List SimAlert :=
  baseErrors

/-- Modelled from the spec: a configuration is geometrically valid when
`length > 0` and each diameter lies within its configured bounds [0, 1]
(the bounds declared by the FloatProperty constructors at lines 13-15). -/
def geometricallyValid (g : BellShapedGrain) : Prop :=
  0 < g.length
    ∧ 0 ≤ g.initialPortDiameter ∧ g.initialPortDiameter ≤ 1
    ∧ 0 ≤ g.throatDiameter ∧ g.throatDiameter ≤ 1
    ∧ 0 ≤ g.aftEndDiameter ∧ g.aftEndDiameter ≤ 1

instance (g : BellShapedGrain) : Decidable (geometricallyValid g) := by
  unfold geometricallyValid
  infer_instance

/-- The round-trip example configuration from the spec:
initialPortDiameter = 0.05, aftEndDiameter = 0.10, length = 0.20,
inhibitedEnds = Both (throatDiameter unused by the formulas; set to 0). -/
def cfg0 : BellShapedGrain :=
  { initialPortDiameter := 1/20
    throatDiameter := 0
    aftEndDiameter := 1/10
    inhibitedEnds := InhibitedEnds.Both
    length := 1/5 }

end Vital

namespace Vital

/-!  Shared helper lemmas. -/

/-- The minor core diameter never exceeds the major one: the inversion flag at
lines 39-42 names the larger configured diameter the major one. -/
lemma coreMinor_le_coreMajor (g : BellShapedGrain) :
    coreMinorDiameter g ≤ coreMajorDiameter g := by
  unfold coreMajorDiameter coreMinorDiameter isCoreInverted
  split
  · next h => exact le_of_lt (of_decide_eq_true h)
  · next h => exact le_of_not_lt (of_decide_eq_false (Bool.of_not_eq_true h))

lemma coreMajorDiameter_nonneg (g : BellShapedGrain)
    (hI : 0 ≤ g.initialPortDiameter) (hA : 0 ≤ g.aftEndDiameter) :
    0 ≤ coreMajorDiameter g := by
  unfold coreMajorDiameter; split <;> assumption

lemma coreMinorDiameter_nonneg (g : BellShapedGrain)
    (hI : 0 ≤ g.initialPortDiameter) (hA : 0 ≤ g.aftEndDiameter) :
    0 ≤ coreMinorDiameter g := by
  unfold coreMinorDiameter; split <;> assumption

lemma regressionFactor_antitone (g : BellShapedGrain) (hL : 0 < g.length)
    {r1 r2 : ℚ} (h12 : r1 ≤ r2) :
    regressionFactor g r2 ≤ regressionFactor g r1 := by
  unfold regressionFactor
  have : r1 / g.length ≤ r2 / g.length := by gcongr
  linarith

lemma regressionFactor_nonneg (g : BellShapedGrain) (hL : 0 < g.length)
    {r : ℚ} (hr : r ≤ g.length) : 0 ≤ regressionFactor g r := by
  unfold regressionFactor
  have : r / g.length ≤ 1 := (div_le_one hL).mpr hr
  linarith

/-- The regressed major diameter read off the triple returned by
`getFrustumInfo`: per lines 53-60 the major end sits in the forward slot
(element 1) when the core is inverted and in the aft slot (element 0)
otherwise. -/
def regressedMajorDiameter (g : BellShapedGrain) (r : ℚ) : ℚ :=
  if isCoreInverted g then (getFrustumInfo g r).2.1 else (getFrustumInfo g r).1

/-- The regressed minor diameter read off the triple returned by
`getFrustumInfo`, the slot complementary to `regressedMajorDiameter`. -/
def regressedMinorDiameter (g : BellShapedGrain) (r : ℚ) : ℚ :=
  if isCoreInverted g then (getFrustumInfo g r).1 else (getFrustumInfo g r).2.1

/-- The mass-flux value as the spec words it: V_current and V_future are the
frustum volumes of `getFrustumInfo regDist` and
`getFrustumInfo (regDist + dRegDist)`, the local production rate is
(V_future - V_current) * density / dTime, `massIn` is added, and the total is
divided by the circle area of the port diameter selected by the inversion
flag from the frustum at the current regression distance. -/
def specMassFlux (piv : ℚ) (g : BellShapedGrain)
    (massIn dTime regDist dRegDist density : ℚ) : ℚ :=
  let current := getFrustumInfo g regDist
  let future := getFrustumInfo g (regDist + dRegDist)
  let vCurrent := frustumVolume piv current.1 current.2.1 current.2.2
  let vFuture := frustumVolume piv future.1 future.2.1 future.2.2
  let portDiameter := if isCoreInverted g then current.2.1 else current.1
  ((vFuture - vCurrent) * density / dTime + massIn) / circleArea piv portDiameter

/-- A configuration violating the configured diameter bounds
(initialPortDiameter = 2 exceeds the upper bound 1 of its FloatProperty). -/
def cfgBad : BellShapedGrain :=
  { initialPortDiameter := 2
    throatDiameter := 0
    aftEndDiameter := 1/10
    inhibitedEnds := InhibitedEnds.Both
    length := 1/5 }

/-!  Claim theorems. -/

/-- C1: for every configuration and all inputs with dTime nonzero and nonzero
port area, `getMassFlux` equals
((V_future - V_current) * density / dTime + massIn) / portArea, where the two
volumes are the frustum volumes of `getFrustumInfo regDist` and
`getFrustumInfo (regDist + dRegDist)` and portArea is the circle area of the
port diameter the inversion flag selects from the frustum at the current
regression distance (`specMassFlux` states this formula in the words of the
spec).  The equality holds for every value of the abstracted constant pi. -/
theorem C1_mass_flux_formula (piv : ℚ) (g : BellShapedGrain)
    (massIn dTime regDist dRegDist pos density : ℚ)
    (hT : dTime ≠ 0) (hA : circleArea piv (portDiameterAt g regDist) ≠ 0) :
    getMassFlux piv g massIn dTime regDist dRegDist pos density
      = specMassFlux piv g massIn dTime regDist dRegDist density := rfl

/-- Witness for C1 at the example configuration. -/
theorem C1_mass_flux_formula_w :
    (1/100 : ℚ) ≠ 0
      ∧ circleArea (355/113) (portDiameterAt cfg0 0) ≠ 0
      ∧ getMassFlux (355/113) cfg0 0 (1/100) 0 (1/1000) 0 1700
          = specMassFlux (355/113) cfg0 0 (1/100) 0 (1/1000) 1700 :=
  ⟨by norm_num,
   by norm_num [circleArea, portDiameterAt, getFrustumInfo, coreMajorDiameter,
     coreMinorDiameter, regressionFactor, isCoreInverted, cfg0],
   C1_mass_flux_formula (355/113) cfg0 0 (1/100) 0 (1/1000) 0 1700 (by norm_num)
     (by norm_num [circleArea, portDiameterAt, getFrustumInfo, coreMajorDiameter,
       coreMinorDiameter, regressionFactor, isCoreInverted, cfg0])⟩

/-- C2: for length > 0, `getFrustumInfo 0` returns the configured diameters in
the slots the inversion-flag mapping of lines 57-60 determines together with
the configured length; both inversion cases place the aft-end diameter in the
aft slot and the initial port diameter in the forward slot, so the triple is
(aftEndDiameter, initialPortDiameter, length).  The round-trip example
evaluates to (0.10, 0.05, 0.20) at regDist 0 and (0.05, 0.025, 0.10) at
regDist 0.10. -/
theorem C2_frustum_at_zero (g : BellShapedGrain) (hL : 0 < g.length) :
    getFrustumInfo g 0 = (g.aftEndDiameter, g.initialPortDiameter, g.length)
      ∧ getFrustumInfo cfg0 0 = (1/10, 1/20, 1/5)
      ∧ getFrustumInfo cfg0 (1/10) = (1/20, 1/40, 1/10) := by
  refine ⟨?_, ?_, ?_⟩
  · cases h : isCoreInverted g
    · simp [getFrustumInfo, h, coreMajorDiameter, coreMinorDiameter, regressionFactor]
    · have hgt : g.aftEndDiameter < g.initialPortDiameter := of_decide_eq_true h
      simp [getFrustumInfo, h, coreMajorDiameter, coreMinorDiameter, regressionFactor]
  · norm_num [getFrustumInfo, cfg0, coreMajorDiameter, coreMinorDiameter,
      regressionFactor, isCoreInverted]
  · norm_num [getFrustumInfo, cfg0, coreMajorDiameter, coreMinorDiameter,
      regressionFactor, isCoreInverted]

/-- Witness for C2 at the example configuration. -/
theorem C2_frustum_at_zero_w :
    (0 : ℚ) < cfg0.length
      ∧ getFrustumInfo cfg0 0
          = (cfg0.aftEndDiameter, cfg0.initialPortDiameter, cfg0.length) :=
  ⟨by norm_num [cfg0], (C2_frustum_at_zero cfg0 (by norm_num [cfg0])).1⟩

/-- C3: as written, no call to `getFrustumInfo` (hence none to `getMassFlux`,
which invokes it) completes normally for any input: line 46 applies the
global name `atan`, which no import statement or definition of the module
binds, so every call raises a NameError during name resolution. -/
theorem C3_calls_never_complete :
    (∀ (g : BellShapedGrain) (regDist : ℚ),
        getFrustumInfoE g regDist = Except.error PyName.atan)
      ∧ (∀ (piv : ℚ) (g : BellShapedGrain)
          (massIn dTime regDist dRegDist position density : ℚ),
          getMassFluxE piv g massIn dTime regDist dRegDist position density
            = Except.error PyName.atan) := by
  constructor <;> intros <;> rfl

/-- C4 (amended): at the example configuration with massIn = 0,
density = 1700, dTime = 0.01, regDist = 0, dRegDist = 0.001, `getMassFlux`
equals (futureVolume - currentVolume) * 1700 / 0.01 / portArea computed
independently from the frustum-volume and circle-area formulas, and that
value is negative (not positive): regression shrinks both diameters, so the
future core volume is below the current one. -/
theorem C4_example_flux (piv pos : ℚ) (hpiv : 0 < piv) :
    getMassFlux piv cfg0 0 (1/100) 0 (1/1000) pos 1700
        = (frustumVolumeAt piv cfg0 (0 + 1/1000) - frustumVolumeAt piv cfg0 0)
            * 1700 / (1/100) / circleArea piv (portDiameterAt cfg0 0)
      ∧ getMassFlux piv cfg0 0 (1/100) 0 (1/1000) pos 1700 < 0 := by
  have hne : piv ≠ 0 := ne_of_gt hpiv
  have hval : getMassFlux piv cfg0 0 (1/100) 0 (1/1000) pos 1700
      = -14208719/48000 := by
    norm_num [getMassFlux, frustumVolumeAt, frustumVolume, circleArea, portDiameterAt,
      getFrustumInfo, coreMajorDiameter, coreMinorDiameter, regressionFactor,
      isCoreInverted, cfg0]
    field_simp
    ring
  refine ⟨by simp [getMassFlux], ?_⟩
  rw [hval]
  norm_num

/-- Witness for C4 (amended) at pi = 355/113. -/
theorem C4_example_flux_w :
    (0 : ℚ) < 355/113
      ∧ getMassFlux (355/113) cfg0 0 (1/100) 0 (1/1000) 0 1700 < 0 :=
  ⟨by norm_num, (C4_example_flux (355/113) 0 (by norm_num)).2⟩

/-- Counterexample to C4 as stated: at the inputs the claim names, the flux
value is not positive. -/
theorem C4_cx :
    ¬ (0 < getMassFlux (355/113) cfg0 0 (1/100) 0 (1/1000) 0 1700) := by
  norm_num [getMassFlux, frustumVolumeAt, frustumVolume, circleArea, portDiameterAt,
    getFrustumInfo, coreMajorDiameter, coreMinorDiameter, regressionFactor,
    isCoreInverted, cfg0]

/-- C5 (amended): with everything else fixed, positive dTime and positive
port area, `getMassFlux` is strictly increasing in massIn; in density it is
strictly DEcreasing whenever the future frustum volume is below the current
one, which is the regular regression case since both diameters shrink. -/
theorem C5_monotonicity (piv : ℚ) (g : BellShapedGrain) (dTime r dr pos : ℚ)
    (hA : 0 < circleArea piv (portDiameterAt g r)) (hT : 0 < dTime) :
    (∀ m1 m2 d : ℚ, m1 < m2 →
        getMassFlux piv g m1 dTime r dr pos d
          < getMassFlux piv g m2 dTime r dr pos d)
      ∧ (∀ m d1 d2 : ℚ, d1 < d2 →
          frustumVolumeAt piv g (r + dr) < frustumVolumeAt piv g r →
          getMassFlux piv g m dTime r dr pos d2
            < getMassFlux piv g m dTime r dr pos d1) := by
  constructor
  · intro m1 m2 d h
    unfold getMassFlux
    exact (div_lt_div_iff_of_pos_right hA).mpr (add_lt_add_left h _)
  · intro m d1 d2 h hVol
    unfold getMassFlux
    apply (div_lt_div_iff_of_pos_right hA).mpr
    apply add_lt_add_right
    apply (div_lt_div_iff_of_pos_right hT).mpr
    have hneg : frustumVolumeAt piv g (r + dr) - frustumVolumeAt piv g r < 0 :=
      sub_neg.mpr hVol
    exact mul_lt_mul_of_neg_left h hneg

/-- Witness for C5 (amended) at the example configuration. -/
theorem C5_monotonicity_w :
    getMassFlux (355/113) cfg0 0 (1/100) 0 (1/1000) 0 1700
        < getMassFlux (355/113) cfg0 1 (1/100) 0 (1/1000) 0 1700
      ∧ getMassFlux (355/113) cfg0 0 (1/100) 0 (1/1000) 0 1701
        < getMassFlux (355/113) cfg0 0 (1/100) 0 (1/1000) 0 1700 := by
  have hA : 0 < circleArea (355/113) (portDiameterAt cfg0 0) := by
    norm_num [circleArea, portDiameterAt, getFrustumInfo, coreMajorDiameter,
      coreMinorDiameter, regressionFactor, isCoreInverted, cfg0]
  have hVol : frustumVolumeAt (355/113) cfg0 (0 + 1/1000)
      < frustumVolumeAt (355/113) cfg0 0 := by
    norm_num [frustumVolumeAt, frustumVolume, getFrustumInfo, coreMajorDiameter,
      coreMinorDiameter, regressionFactor, isCoreInverted, cfg0]
  exact ⟨(C5_monotonicity (355/113) cfg0 (1/100) 0 (1/1000) 0 hA (by norm_num)).1
      0 1 1700 (by norm_num),
    (C5_monotonicity (355/113) cfg0 (1/100) 0 (1/1000) 0 hA (by norm_num)).2
      0 1700 1701 (by norm_num) hVol⟩

/-- Counterexample to C5 as stated: doubling the density at the example
inputs strictly decreases the flux, so the flux is not monotonically
increasing in density. -/
theorem C5_cx :
    getMassFlux (355/113) cfg0 0 (1/100) 0 (1/1000) 0 3400
      < getMassFlux (355/113) cfg0 0 (1/100) 0 (1/1000) 0 1700 := by
  norm_num [getMassFlux, frustumVolumeAt, frustumVolume, circleArea, portDiameterAt,
    getFrustumInfo, coreMajorDiameter, coreMinorDiameter, regressionFactor,
    isCoreInverted, cfg0]

/-- C6: for every configuration with length > 0, `getFrustumInfo length`
returns both diameters 0 and frustum length 0. -/
theorem C6_burnout (g : BellShapedGrain) (hL : 0 < g.length) :
    getFrustumInfo g g.length = (0, 0, 0) := by
  have h0 : g.length ≠ 0 := ne_of_gt hL
  cases h : isCoreInverted g <;>
    simp [getFrustumInfo, h, regressionFactor, div_self h0]

/-- Witness for C6 at the example configuration. -/
theorem C6_burnout_w :
    (0 : ℚ) < cfg0.length ∧ getFrustumInfo cfg0 cfg0.length = (0, 0, 0) :=
  ⟨by norm_num [cfg0], C6_burnout cfg0 (by norm_num [cfg0])⟩

/-- C7: for a fixed configuration with length > 0 and diameters within their
configured lower bound 0, both slots of the `getFrustumInfo` triple are
non-increasing in regDist: each diameter at r2 is at most the corresponding
diameter at r1 whenever 0 ≤ r1 ≤ r2. -/
theorem C7_diameters_antitone (g : BellShapedGrain)
    (hI : 0 ≤ g.initialPortDiameter) (hA : 0 ≤ g.aftEndDiameter)
    (hL : 0 < g.length) (r1 r2 : ℚ) (h0 : 0 ≤ r1) (h12 : r1 ≤ r2) :
    (getFrustumInfo g r2).1 ≤ (getFrustumInfo g r1).1
      ∧ (getFrustumInfo g r2).2.1 ≤ (getFrustumInfo g r1).2.1 := by
  have hf := regressionFactor_antitone g hL h12
  have hM := coreMajorDiameter_nonneg g hI hA
  have hm := coreMinorDiameter_nonneg g hI hA
  cases h : isCoreInverted g <;>
    simp only [getFrustumInfo, h, if_true, if_false, Bool.false_eq_true] <;>
    constructor <;>
    first
      | exact mul_le_mul_of_nonneg_left hf hM
      | exact mul_le_mul_of_nonneg_left hf hm

/-- Witness for C7 at the example configuration with r1 = 0, r2 = 0.10. -/
theorem C7_diameters_antitone_w :
    (getFrustumInfo cfg0 (1/10)).1 ≤ (getFrustumInfo cfg0 0).1
      ∧ (getFrustumInfo cfg0 (1/10)).2.1 ≤ (getFrustumInfo cfg0 0).2.1 :=
  C7_diameters_antitone cfg0 (by norm_num [cfg0]) (by norm_num [cfg0])
    (by norm_num [cfg0]) 0 (1/10) (by norm_num) (by norm_num)

/-- C8: the taper half-angle is invariant under regression: for length > 0 and
0 ≤ regDist < length, (regressed major - regressed minor) divided by twice the
frustum length returned by `getFrustumInfo` equals
(coreMajorDiameter - coreMinorDiameter) / (2 * length) of the initial
configuration, since both diameters carry the factor (1 - regDist / length)
and the length shrinks by the same proportion. -/
theorem C8_half_angle_invariant (g : BellShapedGrain) (hL : 0 < g.length)
    (r : ℚ) (h0 : 0 ≤ r) (hr : r < g.length) :
    (regressedMajorDiameter g r - regressedMinorDiameter g r)
        / (2 * (getFrustumInfo g r).2.2)
      = (coreMajorDiameter g - coreMinorDiameter g) / (2 * g.length) := by
  have hL0 : g.length ≠ 0 := ne_of_gt hL
  have hLr : g.length - r ≠ 0 := ne_of_gt (sub_pos.mpr hr)
  cases h : isCoreInverted g <;>
    simp only [regressedMajorDiameter, regressedMinorDiameter, getFrustumInfo, h,
      if_true, if_false, Bool.false_eq_true, regressionFactor] <;>
    · field_simp
      ring

/-- Witness for C8 at the example configuration with regDist = 0.10. -/
theorem C8_half_angle_invariant_w :
    (regressedMajorDiameter cfg0 (1/10) - regressedMinorDiameter cfg0 (1/10))
        / (2 * (getFrustumInfo cfg0 (1/10)).2.2)
      = (coreMajorDiameter cfg0 - coreMinorDiameter cfg0) / (2 * cfg0.length) :=
  C8_half_angle_invariant cfg0 (by norm_num [cfg0]) (1/10) (by norm_num)
    (by norm_num [cfg0])

/-- C9: the port diameter `getMassFlux` normalizes by is always the regressed
major diameter of the current frustum - the forward slot when the core is
inverted, the aft slot otherwise - which for 0 < length and regDist ≤ length
equals the larger of the two diameters returned by `getFrustumInfo regDist`;
and `getMassFlux` divides by exactly the circle area of that diameter. -/
theorem C9_port_diameter_is_major (piv : ℚ) (g : BellShapedGrain)
    (massIn dTime regDist dRegDist pos density : ℚ)
    (hL : 0 < g.length) (hr : regDist ≤ g.length) :
    portDiameterAt g regDist
        = max (getFrustumInfo g regDist).1 (getFrustumInfo g regDist).2.1
      ∧ getMassFlux piv g massIn dTime regDist dRegDist pos density
        = ((frustumVolumeAt piv g (regDist + dRegDist) - frustumVolumeAt piv g regDist)
              * density / dTime + massIn)
          / circleArea piv (portDiameterAt g regDist) := by
  constructor
  · have hf := regressionFactor_nonneg g hL hr
    have hmm := coreMinor_le_coreMajor g
    have hle := mul_le_mul_of_nonneg_right hmm hf
    cases h : isCoreInverted g <;>
      simp only [portDiameterAt, getFrustumInfo, h, if_true, if_false,
        Bool.false_eq_true]
    · exact (max_eq_left hle).symm
    · exact (max_eq_right hle).symm
  · rfl

/-- Witness for C9 at the example configuration. -/
theorem C9_port_diameter_is_major_w :
    portDiameterAt cfg0 0
        = max (getFrustumInfo cfg0 0).1 (getFrustumInfo cfg0 0).2.1
      ∧ getMassFlux (355/113) cfg0 0 (1/100) 0 (1/1000) 0 1700
        = ((frustumVolumeAt (355/113) cfg0 (0 + 1/1000) - frustumVolumeAt (355/113) cfg0 0)
              * 1700 / (1/100) + 0)
          / circleArea (355/113) (portDiameterAt cfg0 0) :=
  C9_port_diameter_is_major (355/113) cfg0 0 (1/100) 0 (1/1000) 0 1700
    (by norm_num [cfg0]) (by norm_num [cfg0])

/-- C10 (amended): `getGeometryErrors` delegates to the base validation and
appends no shape-specific checks; it returns the base alert sequence
unchanged (and, being a pure function, has no side effects). -/
theorem C10_delegates_unchanged (g : BellShapedGrain) (baseErrors : List SimAlert) :
    getGeometryErrors g baseErrors = baseErrors := rfl

/-- Counterexample to C10 as stated: for a configuration whose initial port
diameter violates its configured bound, `getGeometryErrors` still returns an
empty alert sequence when the base contributes none, so emptiness does not
coincide with geometric validity and no bound check is appended. -/
theorem C10_cx :
    ¬ geometricallyValid cfgBad ∧ getGeometryErrors cfgBad [] = [] := by
  constructor
  · intro h
    have hb := h.2.2.1
    norm_num [cfgBad] at hb
  · rfl

end Vital
